import Mathlib

/-!
# Verification of the xsettings field-resolution engine

A shallow embedding of the `xsettings` Python package (settings schemas with
lazily-resolved, converted field values).  The embedding follows the source
files `xsettings/settings.py`, `xsettings/fields.py`, `xsettings/retreivers.py`
and `xsettings/default_converters.py`.

Python values are modelled by the inductive type `PyVal`; the Python value
universe is restricted to the value shapes the verified claims exercise
(strings, ints, bools, decimals, opaque objects with identity, lazy
class-property references, zero-argument callables, lists).  `PyVal.vNone`
models Python `None` and `PyVal.vDefault` models the `xsentinels.Default`
sentinel.  Machinery that the claims never reach (date/datetime conversion,
non-ASCII environment names, arbitrary constructors) is marked in comments
where it is scoped out.
-/

namespace XSettings

/-- Python runtime values, restricted to the shapes the claims exercise.
`vObj cls contents ident` is an opaque instance of class `cls`: `contents`
identifies its state up to `==`-equality and `ident` is its object identity,
so two values that are `==`-equal copies of each other share `contents` but
differ in `ident`.  `vLazy c key` is the `SettingsClassProperty` forward
reference produced by `_SettingsMeta.__getattr__`, bound to schema class `c`
and attribute `key`.  `vFn fid` is a zero-argument callable. -/
inductive PyVal where
  | vNone
  | vDefault
  | vStr (s : String)
  | vInt (n : Int)
  | vBool (b : Bool)
  | vDec (q : ℚ)
  | vObj (cls : String) (contents : Nat) (ident : Nat)
  | vList (contents : Nat) (ident : Nat)
  | vLazy (c : Nat) (key : String)
  | vFn (fid : Nat)
  deriving DecidableEq

/-- Python `==` on modelled values: structural equality except that object
identity (the `ident` component) is ignored, so a `copy.copy` of an object
compares equal to the original. -/
def pyEq : PyVal → PyVal → Bool
  | .vObj c n _, .vObj c' n' _ => c = c' && n = n'
  | .vList n _, .vList n' _ => n = n'
  | a, b => a = b

/-- Model of `copy.copy`: immutable values are returned unchanged (Python
returns the same object), mutable objects and lists get a fresh identity
distinct from the original (modelled by bumping `ident`). -/
def pyCopy : PyVal → PyVal
  | .vObj c n i => .vObj c n (i + 1)
  | .vList n i => .vList n (i + 1)
  | v => v

/-- Python truthiness of the modelled values.  The `Default` sentinel has no
`__get__` attribute, so its truthiness never influences a modelled code path;
plain objects are truthy by Python's default rules. -/
def pyTruthy : PyVal → Bool
  | .vNone => false
  | .vDefault => false
  | .vStr s => s ≠ ""
  | .vInt n => n ≠ 0
  | .vBool b => b
  | .vDec q => q ≠ 0
  | _ => true

/-- Does the value have a `__get__` attribute (descriptor protocol)?  In the
modelled universe only the `SettingsClassProperty` lazy reference does. -/
def hasGet : PyVal → Bool
  | .vLazy _ _ => true
  | _ => false

/-- Model of Python `str()` on the modelled values (used in error messages and
by the `str` type-hint constructor conversion). -/
def pyStr : PyVal → String
  | .vNone => "None"
  | .vDefault => "Default"
  | .vStr s => s
  | .vInt n => toString n
  | .vBool b => if b then "True" else "False"
  | .vDec q => toString q
  | .vObj c _ _ => "<" ++ c ++ " object>"
  | .vList _ _ => "<list>"
  | .vLazy _ _ => "<SettingsClassProperty>"
  | .vFn _ => "<function>"

/-- Type hints, restricted to the types the claims exercise.  `tOptional t`
models `Optional[t]` (equivalently `Union[t, None]`); `tGeneric o` models a
parameterized generic whose `typing_inspect.get_origin` is `o` (for example
`Sequence[str]` with origin the unparameterized sequence type `tList`).
Date/datetime hints are outside the modelled universe. -/
inductive TypeHint where
  | tStr
  | tInt
  | tBool
  | tDecimal
  | tList
  | tNoneType
  | tAny
  | tObjCls (name : String)
  | tOptional (t : TypeHint)
  | tGeneric (origin : TypeHint)
  deriving DecidableEq

/-- Model of Python `isinstance(value, hint)` for unparameterized hints.
`vBool` is also an instance of `int` because Python's `bool` subclasses `int`.
`tOptional`/`tGeneric`/`tAny` never appear as the second argument on modelled
paths (finalized fields carry unwrapped hints), so they answer `false`. -/
def isInst : PyVal → TypeHint → Bool
  | .vStr _, .tStr => true
  | .vInt _, .tInt => true
  | .vBool _, .tBool => true
  | .vBool _, .tInt => true
  | .vDec _, .tDecimal => true
  | .vList _ _, .tList => true
  | .vNone, .tNoneType => true
  | .vObj c _ _, .tObjCls c' => c = c'
  | _, _ => false

/-- Model of Python `type(value)` as a type hint (used by the field generator
to backfill a missing type hint from a concrete default value). -/
def pyType : PyVal → TypeHint
  | .vNone => .tNoneType
  | .vDefault => .tObjCls "Default"
  | .vStr _ => .tStr
  | .vInt _ => .tInt
  | .vBool _ => .tBool
  | .vDec _ => .tDecimal
  | .vObj c _ _ => .tObjCls c
  | .vList _ _ => .tList
  | .vLazy _ _ => .tObjCls "SettingsClassProperty"
  | .vFn _ => .tObjCls "function"

/-- Retrieval strategies (`SettingsRetrieverProtocol` callables), as
first-order tags whose behaviour a `World` interprets: the built-in
environment-variable retriever, an arbitrary user retriever identified by
`tid`, and the internal `_PropertyRetriever` wrapping the property `pid`. -/
inductive Retr where
  | envVar
  | table (tid : Nat)
  | propRetr (pid : Nat)
  deriving DecidableEq

/-- The `SettingsField` dataclass (`xsettings/fields.py`).  Every dataclass
attribute defaults to Python `None`; `Option` models that unset state
(`defaultValue` uses `PyVal.vNone` directly because the code compares it with
`is not None`).  `converter` is a user converter identified by an id that a
`World` interprets. -/
structure SField where
  name : Option String := none
  sourceClass : Option Nat := none
  sourceName : Option String := none
  required : Option Bool := none
  converter : Option Nat := none
  typeHint : Option TypeHint := none
  retriever : Option Retr := none
  defaultValue : PyVal := .vNone
  deriving DecidableEq

/-- Python truthiness of `field.required` (`None` and `False` are falsy). -/
def reqTruthy (f : SField) : Bool :=
  f.required = some true

/-- Association-list lookup for string-keyed Python dicts. -/
def alookup {α : Type} : List (String × α) → String → Option α
  | [], _ => none
  | (k, v) :: rest, key => if k = key then some v else alookup rest key

/-- ASCII upper-casing of one character (Python `str.upper` restricted to the
ASCII names the claims use). -/
def charUpper (c : Char) : Char :=
  if c.isLower then Char.ofNat (c.toNat - 32) else c

/-- ASCII upper-casing of a string. -/
def pyUpper (s : String) : String :=
  String.mk (s.toList.map charUpper)

/-- ASCII lower-casing of one character. -/
def charLower (c : Char) : Char :=
  if c.isUpper then Char.ofNat (c.toNat + 32) else c

/-- ASCII lower-casing of a string. -/
def pyLower (s : String) : String :=
  String.mk (s.toList.map charLower)

/-- Does `s` start with `p` (Python `str.startswith`)? -/
def strStarts (s p : String) : Bool :=
  p.toList.isPrefixOf s.toList

/-- Parse an all-digit character list to a natural number. -/
def digitsToNat : List Char → Option Nat
  | cs =>
    if cs.all (fun c => c.isDigit) then
      some (cs.foldl (fun a c => a * 10 + (c.toNat - 48)) 0)
    else none

/-- Parse a decimal integer literal with optional minus sign (the `int(str)`
forms the claims use; Python additionally strips whitespace and accepts a
plus sign and underscores, none of which any claim exercises). -/
def parseIntStr (s : String) : Option Int :=
  match s.toList with
  | '-' :: ds =>
    if ds.isEmpty then none
    else (digitsToNat ds).map (fun n => -(n : Int))
  | ds =>
    if ds.isEmpty then none
    else (digitsToNat ds).map (fun n => (n : Int))

/-- Split a character list at the first dot; the second component is `none`
when no dot occurs.  A second dot left inside the fractional part fails the
later digit check, as it fails Python's Decimal parse. -/
def breakAtDot : List Char → List Char × Option (List Char)
  | [] => ([], none)
  | c :: t =>
    if c = '.' then ([], some t)
    else
      let r := breakAtDot t
      (c :: r.1, r.2)

/-- Model of Python's `decimal.Decimal(string)` constructor on the plain
numeric-literal forms the claims use: an optional sign, an integer part and an
optional fractional part (at least one of the two nonempty).  Exponent and
special forms, which no claim exercises, parse to `none` (an
`InvalidOperation` in Python).  Modelled from the external `decimal` module's
documented behaviour; the resulting value is the exact rational denoted by the
literal. -/
def decimalParse (s : String) : Option ℚ :=
  let cs := s.toList
  let signAndRest : Bool × List Char :=
    match cs with
    | '-' :: t => (true, t)
    | '+' :: t => (false, t)
    | other => (false, other)
  let neg := signAndRest.1
  let body := signAndRest.2
  let parts := breakAtDot body
  let mag : Option ℚ :=
    match parts.2 with
    | none =>
      if parts.1.isEmpty then none
      else (digitsToNat parts.1).map (fun n => (n : ℚ))
    | some fp =>
      if parts.1.isEmpty && fp.isEmpty then none
      else
        match digitsToNat parts.1, digitsToNat fp with
        | some a, some b =>
          some (((a * 10 ^ fp.length + b : ℚ)) / (10 ^ fp.length : ℚ))
        | _, _ => none
  mag.map (fun q => if neg then -q else q)

/-! ## The default decimal converter (`default_converters.to_decimal`)

`to_decimal` receives a float, a string or an int.  Python floats are modelled
by their exact binary value (a rational); the Python float-to-string
conversion (shortest round-tripping decimal representation) is an input to the
model, passed as the function `floatStr`. -/

/-- A Python float, identified with its exact binary (dyadic rational)
value. -/
structure PyFloat where
  val : ℚ
  deriving DecidableEq

/-- Inputs of `to_decimal` exercised by the claims. -/
inductive DecIn where
  | flt (f : PyFloat)
  | st (s : String)
  | intg (n : Int)

/-- Embedding of `default_converters.to_decimal`: a float is converted to its
string representation first and then parsed (the code's comment: avoid an
undesirable binary-float to Decimal conversion); strings are parsed directly;
ints convert exactly. -/
def to_decimal (floatStr : PyFloat → String) : DecIn → Option ℚ
  | .flt f => decimalParse (floatStr f)
  | .st s => decimalParse s
  | .intg n => some (n : ℚ)

/-- The IEEE-754 binary64 value nearest to 1.1, i.e. the Python float `1.1`:
its exact value is 2476979795053773 / 2^51, which is strictly greater than
11/10. -/
def floatOnePointOne : PyFloat :=
  { val := (2476979795053773 : ℚ) / (2251799813685248 : ℚ) }

/-! ## Conversion machinery (`SettingsField.convert_value` and helpers) -/

/-- Model of the `int(value)` constructor on the modelled values.  String
parsing follows Lean's `String.toInt?` (decimal digits with optional minus
sign), which agrees with Python on every input a claim uses.  `int(bool)`
gives 0/1; `int(Decimal)` truncates toward zero. -/
def intCtor : PyVal → Except String PyVal
  | .vStr s =>
    match parseIntStr s with
    | some n => .ok (.vInt n)
    | none => .error ("invalid literal for int: " ++ s)
  | .vInt n => .ok (.vInt n)
  | .vBool b => .ok (.vInt (if b then 1 else 0))
  | .vDec q => .ok (.vInt (Int.tdiv q.num (q.den : Int)))
  | v => .error ("int() argument unsupported: " ++ pyStr v)

/-- Model of the `str(value)` constructor: always succeeds. -/
def strCtor (v : PyVal) : Except String PyVal :=
  .ok (.vStr (pyStr v))

/-- Model of `default_converters.to_bool`, i.e. the external
`xbool.bool_value`.  Modelled from that library's documented behaviour
(true-like strings parse to True, others to False, non-strings use
truthiness); no claim exercises boolean conversion. -/
def toBoolPy : PyVal → Except String PyVal
  | .vBool b => .ok (.vBool b)
  | .vStr s => .ok (.vBool (["true", "t", "yes", "y", "on", "1"].contains (pyLower s)))
  | v => .ok (.vBool (pyTruthy v))

/-- Model of `default_converters.to_decimal` inside the resolution value
universe (which contains no floats; the float branch is verified separately
via `to_decimal`): strings are parsed, ints convert exactly, a Decimal passes
through the Decimal constructor unchanged, anything else raises. -/
def toDecimalPy : PyVal → Except String PyVal
  | .vStr s =>
    match decimalParse s with
    | some q => .ok (.vDec q)
    | none => .error ("InvalidOperation: " ++ s)
  | .vInt n => .ok (.vDec (n : ℚ))
  | .vDec q => .ok (.vDec q)
  | v => .error ("cannot convert to Decimal: " ++ pyStr v)

/-- The converter selected by `convert_value`: a user converter (interpreted
by the world's `convImpl`), one of the built-in default converters, the type
hint called as a constructor, or the error-raising fallback installed by
`_get_default_converter` for parameterized generic hints. -/
inductive ConvKind where
  | user (cid : Nat)
  | builtinDecimal
  | builtinBool
  | ctorHint (h : TypeHint)
  | genericErr
  deriving DecidableEq

/-- Calling a type hint as a constructor.  Constructors for plain object
classes and lists are outside the modelled universe (no claim reaches them:
every claim either skips conversion or uses int/str/bool/Decimal); calling
them is modelled as raising. -/
def ctorApply : TypeHint → PyVal → Except String PyVal
  | .tInt, v => intCtor v
  | .tStr, v => strCtor v
  | .tBool, v => .ok (.vBool (pyTruthy v))
  | .tDecimal, v => toDecimalPy v
  | .tObjCls c, v => .error ("constructor for class " ++ c ++ " on " ++ pyStr v ++ " not modelled")
  | _, v => .error ("unsupported type called as constructor on " ++ pyStr v)

/-- The `DEFAULT_CONVERTERS` dict keyed by exact type-hint match.  The source
dict also maps the date and datetime types, which lie outside the modelled
type-hint universe. -/
def DEFAULT_CONVERTERS : Option TypeHint → Option ConvKind
  | some .tDecimal => some .builtinDecimal
  | some .tBool => some .builtinBool
  | _ => none

/-- Embedding of `SettingsField._get_default_converter`: a parameterized
generic hint yields the error-raising converter, otherwise the hint itself is
used as the converter; with no hint there is no converter (Python returns the
falsy `None` hint). -/
def defaultConverterOf (f : SField) : Option ConvKind :=
  match f.typeHint with
  | none => none
  | some (.tGeneric _) => some .genericErr
  | some h => some (.ctorHint h)

/-- Embedding of `SettingsField._get_base_typehint`: no hint gives `none`, a
parameterized generic reduces to its `typing_inspect.get_origin`, anything
else is returned unchanged.  (Finalized fields never carry `tOptional`
hints — the generator unwraps them — so the origin of a bare `Union` is not
modelled.) -/
def baseTypehint (f : SField) : Option TypeHint :=
  match f.typeHint with
  | none => none
  | some (.tGeneric o) => some o
  | some h => some h

/-- Apply a selected converter to a value. -/
def applyConv (convImpl : Nat → PyVal → Except String PyVal) :
    ConvKind → PyVal → Except String PyVal
  | .user cid, v => convImpl cid v
  | .builtinDecimal, v => toDecimalPy v
  | .builtinBool, v => toBoolPy v
  | .ctorHint h, v => ctorApply h v
  | .genericErr, v =>
    .error ("Unsupported: cannot convert value " ++ pyStr v ++
      " into a generic type (future feature).")

/-- Python exceptions raised on the modelled paths.  `SettingsValueError` and
`SettingsConversionError` both subclass `ValueError` and `AttributeError` (and
neither subclasses the other); `recursionLimit` models exhausting Python's
recursion limit on unboundedly self-referential lazy references. -/
inductive PyErr where
  | attrError (msg : String)
  | svError (msg : String)
  | convError (msg : String)
  | assertError (msg : String)
  | recursionLimit
  deriving DecidableEq

/-- Decidable equality of `Except` results, for evaluating the model on
concrete inputs. -/
instance {ε α : Type} [DecidableEq ε] [DecidableEq α] : DecidableEq (Except ε α) := fun a b =>
  match a, b with
  | .ok x, .ok y =>
    match decEq x y with
    | isTrue h => isTrue (by rw [h])
    | isFalse h => isFalse (fun hc => h (by cases hc; rfl))
  | .error x, .error y =>
    match decEq x y with
    | isTrue h => isTrue (by rw [h])
    | isFalse h => isFalse (fun hc => h (by cases hc; rfl))
  | .ok _, .error _ => isFalse (fun hc => by cases hc)
  | .error _, .ok _ => isFalse (fun hc => by cases hc)

/-- Is the exception caught by an `except AttributeError` clause?  Both
settings error classes subclass `AttributeError`. -/
def PyErr.isAttrLike : PyErr → Bool
  | .attrError _ => true
  | .svError _ => true
  | .convError _ => true
  | _ => false

/-- The message text carried by the exception. -/
def PyErr.msg : PyErr → String
  | .attrError m => m
  | .svError m => m
  | .convError m => m
  | .assertError m => m
  | .recursionLimit => "maximum recursion depth exceeded"

/-- Repr of an optional string the way Python's dataclass repr prints it. -/
def strOptRepr : Option String → String
  | none => "None"
  | some s => "\x27" ++ s ++ "\x27"

/-- Repr of a type hint the way Python prints type objects. -/
def typeHintRepr : TypeHint → String
  | .tStr => "<class \x27str\x27>"
  | .tInt => "<class \x27int\x27>"
  | .tBool => "<class \x27bool\x27>"
  | .tDecimal => "<class \x27Decimal\x27>"
  | .tList => "<class \x27list\x27>"
  | .tNoneType => "<class \x27NoneType\x27>"
  | .tAny => "typing.Any"
  | .tObjCls c => "<class \x27" ++ c ++ "\x27>"
  | .tOptional _ => "typing.Optional"
  | .tGeneric _ => "typing.Generic"

/-- Repr of an optional retriever. -/
def retrRepr : Option Retr → String
  | none => "None"
  | some .envVar => "<EnvVarRetriever>"
  | some (.table t) => "<retriever " ++ toString t ++ ">"
  | some (.propRetr p) => "<PropertyRetriever " ++ toString p ++ ">"

/-- Repr of an optional user converter. -/
def convRepr : Option Nat → String
  | none => "None"
  | some c => "<converter " ++ toString c ++ ">"

/-- Repr of an optional bool. -/
def boolOptRepr : Option Bool → String
  | none => "None"
  | some true => "True"
  | some false => "False"

/-- Repr of an optional source class given a class-name resolver. -/
def clsOptRepr (clsNameOf : Nat → String) : Option Nat → String
  | none => "None"
  | some c => "<class \x27" ++ clsNameOf c ++ "\x27>"

/-- The dataclass repr of a `SettingsField`, printing every dataclass
attribute in declaration order; error messages interpolate it. -/
def fieldRepr (clsNameOf : Nat → String) (f : SField) : String :=
  "SettingsField(name=" ++ strOptRepr f.name ++
  ", source_class=" ++ clsOptRepr clsNameOf f.sourceClass ++
  ", source_name=" ++ strOptRepr f.sourceName ++
  ", required=" ++ boolOptRepr f.required ++
  ", converter=" ++ convRepr f.converter ++
  ", type_hint=" ++ (match f.typeHint with | none => "None" | some h => typeHintRepr h) ++
  ", retriever=" ++ retrRepr f.retriever ++
  ", default_value=" ++ pyStr f.defaultValue ++ ")"

/-- Embedding of `SettingsField.convert_value`.  `convImpl` interprets user
converters, `clsNameOf` resolves class names for error messages. -/
def convertValue (convImpl : Nat → PyVal → Except String PyVal)
    (clsNameOf : Nat → String) (f : SField) (v0 : PyVal) : Except PyErr PyVal :=
  let sel : Option ConvKind × PyVal :=
    match f.converter with
    | some cid => (some (.user cid), v0)
    | none =>
      let v1 := if v0 = .vDefault then .vNone else v0
      match DEFAULT_CONVERTERS f.typeHint with
      | some c => (some c, v1)
      | none => (defaultConverterOf f, v1)
  let afterConv : Except PyErr PyVal :=
    match sel.1 with
    | some c =>
      if sel.2 = .vNone then .ok sel.2
      else
        let needsConv : Bool :=
          match baseTypehint f with
          | none => true
          | some h => !(isInst sel.2 h)
        if needsConv then
          match applyConv convImpl c sel.2 with
          | .ok v2 => .ok v2
          | .error e =>
            .error (.convError ("While attempting to convert value (" ++ pyStr v0 ++
              ") via converter (" ++ convRepr f.converter ++ "), for field (" ++
              fieldRepr clsNameOf f ++ "); we got an error (" ++ e ++ ")."))
        else .ok sel.2
    | none => .ok sel.2
  match afterConv with
  | .error e => .error e
  | .ok v2 =>
    let v3 := if v2 = .vDefault then .vNone else v2
    if v3 = .vNone && v0 ≠ .vNone && reqTruthy f then
      .error (.convError ("After converting value (" ++ pyStr v0 ++ ") via converter (" ++
        convRepr f.converter ++ "), we got back a None value for a required field (" ++
        fieldRepr clsNameOf f ++ ")."))
    else .ok v3

/-! ## The settings runtime world -/

/-- A constructed `BaseSettings` subclass as the metaclass leaves it:
`settingFields` is `_setting_fields` (own finalized fields only),
`defaultRetrievers` is `_default_retrievers`, `mro` is
`_setting_subclasses_in_mro` (the class itself first, then its settings
ancestors nearest-first; `BaseSettings` itself never appears there),
`plainAttrs` are the attributes reachable through plain (non-settings)
superclasses, and `hasPlain` is `_there_is_plain_superclass`. -/
structure SchemaCls where
  pyName : String
  settingFields : List (String × SField)
  defaultRetrievers : List Retr
  mro : List Nat
  plainAttrs : List (String × PyVal)
  hasPlain : Bool

/-- A settings instance: its class, its `__dict__` of directly-set values and
its `_instance_retrievers`. -/
structure Inst where
  cls : Nat
  dict : List (String × PyVal)
  instRetrievers : List Retr

/-- The static world a resolution runs in: the constructed classes and live
instances (addressed by index), the ambient-context state (`current`
instance and `dependency_chain` per class, both supplied by the external
`xinject` collaborator), the process environment, and interpretations for
user retrievers, property getters, zero-argument callables and user
converters. -/
structure World where
  classes : List SchemaCls
  insts : List Inst
  current : List Nat
  chains : List (List Nat)
  environ : List (String × String)
  retrImpl : Nat → String → Nat → PyVal
  propImpl : Nat → Nat → PyVal
  callImpl : Nat → PyVal
  convImpl : Nat → PyVal → Except String PyVal

def emptyCls : SchemaCls :=
  ⟨"", [], [], [], [], false⟩

def emptyInst : Inst :=
  ⟨0, [], []⟩

def World.classAt (w : World) (c : Nat) : SchemaCls :=
  w.classes.getD c emptyCls

def World.instAt (w : World) (i : Nat) : Inst :=
  w.insts.getD i emptyInst

def World.currentAt (w : World) (c : Nat) : Nat :=
  w.current.getD c 0

def World.chainAt (w : World) (c : Nat) : List Nat :=
  w.chains.getD c []

def World.clsName (w : World) (c : Nat) : String :=
  (w.classAt c).pyName

/-- Field repr against a world's class names. -/
def fieldReprW (w : World) (f : SField) : String :=
  fieldRepr (fun c => w.clsName c) f

/-- Embedding of `EnvVarRetriever.__call__`: look the field name up in the
environment as-is; on a miss (even of an empty string the lookup returns it),
retry with the name upper-cased; otherwise `None`. -/
def envVarRetrieve (environ : List (String × String)) (f : SField) : PyVal :=
  let nm := f.name.getD ""
  match alookup environ nm with
  | some v => .vStr v
  | none =>
    match alookup environ (pyUpper nm) with
    | some v => .vStr v
    | none => .vNone

/-- Apply a retrieval strategy to `(field, settings)`. -/
def applyRetr (w : World) (r : Retr) (f : SField) (i : Nat) : PyVal :=
  match r with
  | .envVar => envVarRetrieve w.environ f
  | .table tid => w.retrImpl tid (f.name.getD "") i
  | .propRetr pid => w.propImpl pid i

/-- The field-search loop shared by `__getattribute__`: walk
`_setting_subclasses_in_mro` and take the first class owning the key.  (The
source loop also breaks upon reaching `BaseSettings`, but `BaseSettings` is
never a member of `_setting_subclasses_in_mro`, so that break is dead; see
the class-heap model below where the analogous dead branch is kept.) -/
def findFieldAux (w : World) (key : String) : List Nat → Option SField
  | [] => none
  | c :: rest =>
    match alookup (w.classAt c).settingFields key with
    | some f => some f
    | none => findFieldAux w key rest

/-- Locate the nearest-ancestor field for a key starting from class `cid`. -/
def findFieldRes (w : World) (cid : Nat) (key : String) : Option SField :=
  findFieldAux w key (w.classAt cid).mro

/-! ## `_resolve_field_value` -/

/-- Embedding of the `self_and_parent_retrievers` generator inside
`_resolve_field_value`: first the instance's own `_instance_retrievers`, then
for each instance in the ambient dependency chain other than the instance
itself (in chain order, most recently pushed first) its
`_instance_retrievers`, then for each class in `_setting_subclasses_in_mro`
(the class itself first, then ancestors nearest-first) its
`_default_retrievers`. -/
def selfAndParentRetrievers (w : World) (i : Nat) : List Retr :=
  let inst := w.instAt i
  inst.instRetrievers
    ++ ((w.chainAt inst.cls).filter (fun p => p ≠ i)).flatMap
        (fun p => (w.instAt p).instRetrievers)
    ++ ((w.classAt inst.cls).mro).flatMap
        (fun c => (w.classAt c).defaultRetrievers)

/-- The retriever sequence of the `for retriever in xloop(field.retriever,
self_and_parent_retrievers())` loop: `xloop` yields the field's own retriever
first when it is not `None`, then the generator's elements. -/
def retrieversToTry (w : World) (f : SField) (i : Nat) : List Retr :=
  (match f.retriever with
   | some r => [r]
   | none => []) ++ selfAndParentRetrievers w i

/-- The loop body: each retriever's result is assigned to `value`; the loop
breaks at the first non-`None` result.  With no retrievers at all, `value`
keeps its initial contents (which can be the `Default` sentinel). -/
def runRetrLoop (w : World) (f : SField) (i : Nat) : List Retr → PyVal → PyVal
  | [], v => v
  | r :: rs, _ =>
    let v := applyRetr w r f i
    if v = .vNone then runRetrLoop w f i rs v else v

/-- The retrieval stage of `_resolve_field_value`: the retriever loop runs
only when the incoming value is `None` or the `Default` sentinel. -/
def retrievedStage (w : World) (f : SField) (i : Nat) (v0 : PyVal) : PyVal :=
  if v0 = .vNone || v0 = .vDefault then
    runRetrLoop w f i (retrieversToTry w f i) v0
  else v0

/-- Resolving a `__get__`-bearing value bound to `(settings, cls)`.  A
`SettingsClassProperty` produced by `_SettingsMeta.__getattr__` ignores the
owner it is handed and reads the captured attribute from the captured schema
class's current (`grab()`-ed) instance; `rec` performs that nested attribute
access. -/
def derefGetWith (rec : Nat → String → Except PyErr PyVal) (w : World) (v : PyVal) :
    Except PyErr PyVal :=
  match v with
  | .vLazy c key => rec (w.currentAt c) key
  | _ => .ok v

/-- The missing-value error message of `_resolve_field_value` (the dataclass
repr of the field, which prints its name and owning class, is
interpolated). -/
def missingValueMsg (w : World) (f : SField) : String :=
  "Missing value for " ++ fieldReprW w f ++ ", while retrieving value."

/-- The error message raised when conversion of a retrieved value produced
`None` for a required field. -/
def requiredNoneAfterConvMsg (w : World) (f : SField) (v : PyVal) : String :=
  "Field (" ++ fieldReprW w f ++ ") is required/non-optional and the value we have is " ++
  "None after running the converter on the originally retrieved value of (" ++ pyStr v ++ ")."

/-- The combined error message of the `except SettingsValueError` fallback
when the plain lookup also fails. -/
def plainFallbackFailMsg (w : World) (f : SField) (emsg m : String) : String :=
  "After attempting to get field value (the \x27from\x27 exception with message [" ++
  emsg ++ "]); I tried to get value from plain superclass and that was also " ++
  "unsuccessful and produced exception/error: (" ++ m ++ "); for field (" ++
  fieldReprW w f ++ ")."

/-- The error message of the fallback when the plain lookup yields `None` for
a required field. -/
def plainNoneFallbackMsg (w : World) (f : SField) (emsg : String) : String :=
  "After attempting to get field value I next tried to get it from the plain " ++
  "superclass but got None (details: via \x27from\x27 exception with message " ++
  emsg ++ "); for field (" ++ fieldReprW w f ++ ")."

/-- The error message of the fallback when converting the plain-lookup value
yields `None` for a required field. -/
def plainConvNoneFallbackMsg (w : World) (f : SField) : String :=
  "After attempting to get field value I next tried to get it from the plain " ++
  "superclass, it came back with a value. But after running the converter on the " ++
  "retrieved value a None was the result and this field is required; for field (" ++
  fieldReprW w f ++ ")."

/-- Embedding of `_resolve_field_value` (settings.py lines 609-659): run the
retriever loop when the value is `None`/`Default`, fall back to
`default_value` (calling it when callable), raise the missing-value error for
a still-`None` required field, resolve a `__get__`-bearing value, convert,
and raise when conversion yields `None` for a required field. -/
def resolveFieldValueWith (rec : Nat → String → Except PyErr PyVal) (w : World)
    (f : SField) (i : Nat) (v0 : PyVal) : Except PyErr PyVal :=
  let v1 := retrievedStage w f i v0
  let v2 :=
    if v1 = .vNone then
      match f.defaultValue with
      | .vFn fid => w.callImpl fid
      | d => d
    else v1
  if v2 = .vNone && reqTruthy f then
    .error (.svError (missingValueMsg w f))
  else
    let step : Except PyErr PyVal :=
      if pyTruthy v2 && hasGet v2 then derefGetWith rec w v2 else .ok v2
    match step with
    | .error e => .error e
    | .ok v3 =>
      match convertValue w.convImpl (fun c => w.clsName c) f v3 with
      | .error e => .error e
      | .ok v4 =>
        if v4 = .vNone && reqTruthy f then
          .error (.svError (requiredNoneAfterConvMsg w f v3))
        else .ok v4

/-! ## `BaseSettings.__getattribute__` -/

/-- Outcome of the inner `get_normal_value` helper: a value was obtained; the
lookup raised and the nonlocal `value` kept its previous contents
(`failKeep`); or the raw lookup succeeded but binding its `__get__` raised an
`AttributeError`-like exception, leaving the raw descriptor in the nonlocal
`value` (`failAfterRaw`). -/
inductive NormalRes where
  | got (v : PyVal)
  | failKeep (msg : String)
  | failAfterRaw (raw : PyVal) (msg : String)

/-- Model of `object.__getattribute__(obj, key)` for the modelled instances:
the instance `__dict__` first, then class-level attributes, which after field
generation (the metaclass pops every generated field name from the class
namespace) are the attributes contributed by plain superclasses. -/
def objGetattributeRaw (w : World) (i : Nat) (key : String) : Option PyVal :=
  match alookup (w.instAt i).dict key with
  | some v => some v
  | none => alookup (w.classAt (w.instAt i).cls).plainAttrs key

/-- Embedding of `get_normal_value` for object `i`: raw lookup, then explicit
`__get__` binding, with `except AttributeError` catching the
`AttributeError`-likes (including both settings error classes, which subclass
`AttributeError`). -/
def getNormalWith (rec : Nat → String → Except PyErr PyVal) (w : World) (i : Nat)
    (key : String) : Except PyErr NormalRes :=
  match objGetattributeRaw w i key with
  | none =>
    .ok (.failKeep ("object has no attribute \x27" ++ key ++ "\x27"))
  | some raw =>
    if hasGet raw then
      match derefGetWith rec w raw with
      | .ok v => .ok (.got v)
      | .error e => if e.isAttrLike then .ok (.failAfterRaw raw e.msg) else .error e
    else .ok (.got raw)

/-- The nonlocal state of `__getattribute__`: the `value` local, the pending
`attr_error` and the `already_retrieved_normal_value` flag. -/
structure PState where
  value : PyVal
  attrErr : Option String
  already : Bool

/-- The dependency-chain loop of `__getattribute__`: for each instance in the
chain that has the key in its `__dict__`, run `get_normal_value` on it (which
sets `already_retrieved_normal_value` only when that instance is the instance
being accessed) and break at the first non-`None` value. -/
def chainFoldWith (rec : Nat → String → Except PyErr PyVal) (w : World) (key : String)
    (selfIdx : Nat) : List Nat → PState → Except PyErr PState
  | [], st => .ok st
  | p :: ps, st =>
    let step : Except PyErr PState :=
      if (alookup (w.instAt p).dict key).isSome then
        match getNormalWith rec w p key with
        | .error e => .error e
        | .ok (.got v) => .ok ⟨v, none, if p = selfIdx then true else st.already⟩
        | .ok (.failKeep m) => .ok ⟨st.value, some m, if p = selfIdx then true else st.already⟩
        | .ok (.failAfterRaw raw m) =>
          .ok ⟨raw, some m, if p = selfIdx then true else st.already⟩
      else .ok st
    match step with
    | .error e => .error e
    | .ok st2 => if st2.value ≠ .vNone then .ok st2 else chainFoldWith rec w key selfIdx ps st2

/-- One unfolding of `BaseSettings.__getattribute__` (settings.py lines
484-598), with `rec` performing nested attribute accesses: internal names use
plain attribute semantics; otherwise locate the field, gate the first
`get_normal_value` on plain-superclass shadowing, walk the dependency chain,
run `_resolve_field_value`, and on a `SettingsValueError` fall back to the
plain lookup exactly as the `except` clause does. -/
def getattrStep (rec : Nat → String → Except PyErr PyVal) (w : World) (i : Nat)
    (key : String) : Except PyErr PyVal :=
  if strStarts key "_" || strStarts key "settings__" then
    match objGetattributeRaw w i key with
    | some v => .ok v
    | none => .error (.attrError ("object has no attribute \x27" ++ key ++ "\x27"))
  else
    let inst := w.instAt i
    let cls := w.classAt inst.cls
    let field? := findFieldRes w inst.cls key
    let phase1 : Except PyErr PState :=
      if !cls.hasPlain || field?.isNone || (alookup inst.dict key).isSome then
        match getNormalWith rec w i key with
        | .error e => .error e
        | .ok (.got v) => .ok ⟨v, none, true⟩
        | .ok (.failKeep m) => .ok ⟨.vNone, some m, true⟩
        | .ok (.failAfterRaw raw m) => .ok ⟨raw, some m, true⟩
      else .ok ⟨.vNone, none, false⟩
    match phase1 with
    | .error e => .error e
    | .ok st1 =>
      let phase2 : Except PyErr PState :=
        if !st1.already || st1.value = .vNone then
          chainFoldWith rec w key i (w.chainAt inst.cls) st1
        else .ok st1
      match phase2 with
      | .error e => .error e
      | .ok st =>
        match field? with
        | some f =>
          match resolveFieldValueWith rec w f i st.value with
          | .ok v => .ok v
          | .error e =>
            match e with
            | .svError emsg =>
              if st.already then .error (.svError emsg)
              else
                match getNormalWith rec w i key with
                | .error e2 => .error e2
                | .ok (.failKeep m) =>
                  .error (.svError (plainFallbackFailMsg w f emsg m))
                | .ok (.failAfterRaw _ m) =>
                  .error (.svError (plainFallbackFailMsg w f emsg m))
                | .ok (.got v2) =>
                  if v2 = .vNone && reqTruthy f then
                    .error (.svError (plainNoneFallbackMsg w f emsg))
                  else
                    match convertValue w.convImpl (fun c => w.clsName c) f v2 with
                    | .error e3 => .error e3
                    | .ok v3 =>
                      if v3 = .vNone && reqTruthy f then
                        .error (.svError (plainConvNoneFallbackMsg w f))
                      else .ok v3
            | other => .error other
        | none =>
          match st.attrErr with
          | some _ =>
            .error (.attrError ("Unable to retrieve settings attribute (" ++ key ++
              "), there was no defined class-level settings field and no value set for " ++
              "attribute on object, see original exception for more details."))
          | none => .ok st.value

/-- Instance attribute access with a recursion budget: each nested access
(through lazy references) consumes one unit; exhausting the budget models
Python's recursion limit. -/
def getattrInst : Nat → World → Nat → String → Except PyErr PyVal
  | 0, _, _, _ => .error .recursionLimit
  | n + 1, w, i, key => getattrStep (fun j k => getattrInst n w j k) w i key

/-- Embedding of `_SettingsMeta.__getattr__` over the resolution world:
internal names raise; every other name yields the `SettingsClassProperty`
lazy reference bound to the accessed class and the name.  (The `not found`
raise inside the source's mro scan sits behind an `if c is BaseSettings`
test, and `BaseSettings` never occurs in `_setting_subclasses_in_mro`, so the
scan never raises and control always reaches the property construction; the
class-heap model below keeps that scan explicitly.) -/
def metaGetattrRes (w : World) (cid : Nat) (key : String) : Except PyErr PyVal :=
  if strStarts key "_" || strStarts key "settings__" then
    .error (.attrError ("An attribute lookup that start with _ or settings__ just " ++
      "happened (" ++ key ++ ") and it does not exist; on BaseSettings subclass (" ++
      w.clsName cid ++ ")."))
  else .ok (.vLazy cid key)

/-! ## Claim-side formulation of the retriever consultation order (C1) -/

/-- The consultation order exactly as the specification states it: the
field's own retriever first (when set), then the instance's own registered
retrievers, then the registered retrievers of each other instance in the
ambient dependency chain (nearest scope first, skipping the instance itself),
then the class-level default retrievers of each schema class in the ancestor
chain (nearest class first, starting with the class itself). -/
def claimedRetrieverOrder (w : World) (f : SField) (i : Nat) : List Retr :=
  (match f.retriever with
   | some r => [r]
   | none => []) ++
  (w.instAt i).instRetrievers ++
  ((w.chainAt (w.instAt i).cls).filter (fun p => p ≠ i)).flatMap
    (fun p => (w.instAt p).instRetrievers) ++
  ((w.classAt (w.instAt i).cls).mro).flatMap
    (fun c => (w.classAt c).defaultRetrievers)

/-- The first non-`None` result among a retriever sequence, as the
specification describes the winning strategy. -/
def firstNonNoneValue (w : World) (f : SField) (i : Nat) : List Retr → Option PyVal
  | [] => none
  | r :: rs =>
    let v := applyRetr w r f i
    if v = .vNone then firstNonNoneValue w f i rs else some v

/-! ## The class heap model (`_SettingsMeta.__getattr__` / `__setattr__`)

Class-level attribute assignment mutates `SettingsField` objects in place, and
an inherited field is shared between the owning ancestor and every descendant
that does not re-declare it (`generate_setting_fields` creates new field
objects only for names declared on the child, and `_SettingsMeta.__new__`
stores only those in the child's `_setting_fields`).  To express that
sharing, this model addresses field objects through a heap: `fieldRefs` maps
an attribute name to the index of the owned `SettingsField` in `heap`. -/

/-- A constructed schema class as the mutation model sees it. -/
structure HClass where
  pyName : String
  fieldRefs : List (String × Nat)
  mro : List Nat
  deriving DecidableEq

def emptyHCls : HClass :=
  ⟨"", [], []⟩

/-- The mutable class/field state.  `baseId` is the identity of the
`BaseSettings` class used by the `c is BaseSettings` tests; by construction
(`_SettingsMeta.__new__` skips `BaseSettings` when building
`_setting_subclasses_in_mro`) it never occurs in any `mro` list. -/
structure MetaWorld where
  heap : List SField
  classes : List HClass
  baseId : Nat
  deriving DecidableEq

def MetaWorld.classAtH (w : MetaWorld) (c : Nat) : HClass :=
  w.classes.getD c emptyHCls

def MetaWorld.heapAt (w : MetaWorld) (r : Nat) : SField :=
  w.heap.getD r {}

/-- The mro scan of `_SettingsMeta.__getattr__` (settings.py lines 230-240):
break when a class owns the key; raise upon reaching `BaseSettings`; when the
loop completes without either, control simply falls through.  Because
`BaseSettings` is never a member of `_setting_subclasses_in_mro`, the raise
is unreachable. -/
def metaGetattrScan (w : MetaWorld) (cid : Nat) (key : String) : List Nat → Except PyErr Unit
  | [] => .ok ()
  | c :: rest =>
    if (alookup (w.classAtH c).fieldRefs key).isSome then .ok ()
    else if c = w.baseId then
      .error (.attrError ("Have no class-attribute or defined SettingsField for attribute " ++
        "name (" ++ key ++ ") on BaseSettings subclass (" ++ (w.classAtH cid).pyName ++ ")."))
    else metaGetattrScan w cid key rest

/-- Embedding of `_SettingsMeta.__getattr__` over the heap model: internal
names raise; otherwise run the mro scan and, whenever it does not raise
(which is always), return the `SettingsClassProperty` lazy reference. -/
def metaGetattrH (w : MetaWorld) (cid : Nat) (key : String) : Except PyErr PyVal :=
  if strStarts key "_" || strStarts key "settings__" then
    .error (.attrError ("An attribute lookup that start with _ or settings__ just " ++
      "happened (" ++ key ++ ") and it does not exist."))
  else
    match metaGetattrScan w cid key (w.classAtH cid).mro with
    | .error e => .error e
    | .ok _ => .ok (.vLazy cid key)

/-- The field-search loop of `_SettingsMeta.__setattr__` (settings.py lines
259-267): walk `_setting_subclasses_in_mro`, stop at the first class owning
the key, give up upon reaching `BaseSettings` (again unreachable). -/
def findFieldRefScan (w : MetaWorld) (key : String) : List Nat → Option Nat
  | [] => none
  | c :: rest =>
    match alookup (w.classAtH c).fieldRefs key with
    | some r => some r
    | none => if c = w.baseId then none else findFieldRefScan w key rest

/-- Locate the heap reference of the nearest field named `key` for class
`cid`. -/
def findFieldRefH (w : MetaWorld) (cid : Nat) (key : String) : Option Nat :=
  findFieldRefScan w key (w.classAtH cid).mro

/-- The claim-side search: the first class in the ancestor chain
(nearest-first) owning the field name. -/
def specNearestFieldRef (w : MetaWorld) (cid : Nat) (key : String) : Option Nat :=
  (w.classAtH cid).mro.findSome? (fun c => alookup (w.classAtH c).fieldRefs key)

/-- Overwrite only the `default_value` of a field object (settings.py line
279: a plain attribute assignment, with no copy of the assigned value). -/
def setDefault (f : SField) (v : PyVal) : SField :=
  { f with defaultValue := v }

/-- Result of a class-level attribute assignment: names starting with an
underscore fall through to the ordinary `type.__setattr__` (out of the
field model); otherwise the resolved field's heap cell is updated. -/
inductive SetRes where
  | plainClassSet
  | updatedField (w : MetaWorld) (ref : Nat)
  deriving DecidableEq

/-- Embedding of `_SettingsMeta.__setattr__` (settings.py lines 248-279). -/
def metaSetattrH (w : MetaWorld) (cid : Nat) (key : String) (v : PyVal) : Except PyErr SetRes :=
  if strStarts key "_" then .ok .plainClassSet
  else
    match findFieldRefH w cid key with
    | none =>
      .error (.attrError ("Setting new fields on BaseSettings subclass unsupported " ++
        "currently, attempted to set key (" ++ key ++ ") with value (" ++ pyStr v ++ ")."))
    | some r =>
      .ok (.updatedField { w with heap := w.heap.set r (setDefault (w.heapAt r) v) } r)

/-! ## The field generator (`fields.generate_setting_fields`) -/

/-- A class-namespace entry as `generate_setting_fields` distinguishes them:
a plain non-callable value, an explicit `SettingsField`, a read-only property
(with the getter's return annotation, and whether a setter/deleter is
defined), a `SettingsClassProperty` lazy reference (it has `__get__` and an
un-annotated `fget`, and is not a `property` instance, so it lands in the
plain-default branch without a type hint), or a callable / staticmethod /
classmethod (which never become fields). -/
inductive AttrVal where
  | plain (v : PyVal)
  | fieldDecl (f : SField)
  | prop (pid : Nat) (retHint : Option TypeHint) (hasSetterOrDeleter : Bool)
  | lazyAttr (c : Nat) (key : String)
  | callableAttr
  | staticM
  | classM

/-- Embedding of `fields._allowed_field`. -/
def allowedField (k : String) (v : AttrVal) : Bool :=
  if strStarts k "_" then false
  else
    match v with
    | .staticM => false
    | .classM => false
    | .callableAttr => false
    | _ => true

/-- Embedding of `SettingsField.merge` (fields.py lines 236-254): `required`
is overwritten unconditionally (even by an unset `None`); `name` only when
the override's name is truthy (set and nonempty); `converter`, `type_hint`
and `retriever` only when set; `default_value` only when not `None`, and then
through `copy.copy`. -/
def SField.merge (self override : SField) : SField :=
  { self with
    required := override.required,
    name :=
      match override.name with
      | some nm => if nm = "" then self.name else some nm
      | none => self.name,
    converter :=
      match override.converter with
      | some c => some c
      | none => self.converter,
    typeHint :=
      match override.typeHint with
      | some t => some t
      | none => self.typeHint,
    retriever :=
      match override.retriever with
      | some r => some r
      | none => self.retriever,
    defaultValue :=
      if override.defaultValue ≠ .vNone then pyCopy override.defaultValue
      else self.defaultValue }

/-- Update the value stored at a key of an association list. -/
def aupdate {α : Type} : List (String × α) → String → (α → α) → List (String × α)
  | [], _, _ => []
  | (k, v) :: rest, key, g =>
    if k = key then (k, g v) :: rest else (k, v) :: aupdate rest key g

/-- `SettingsField(name=attr_key, source_name=attr_key)`: the fresh field the
generator creates the first time a key is merged. -/
def blankField (key : String) : SField :=
  { name := some key, sourceName := some key }

/-- The generator's accumulated state: the `setting_fields` dict (insertion
ordered) and the `already_merged_parent_for_field` set. -/
structure GState where
  fields : List (String × SField)
  merged : List String

/-- Embedding of the inner `merge_field` closure of `generate_setting_fields`
(fields.py lines 415-435): create the blank field on first sight, merge the
parent's finalized field once (before anything else is merged into the key),
then merge the supplied partial field. -/
def mergeFieldStep (parents : List (String × SField)) (st : GState) (key : String)
    (mf : SField) : GState :=
  let st1 : GState :=
    if (alookup st.fields key).isSome then st
    else { st with fields := st.fields ++ [(key, blankField key)] }
  let st2 : GState :=
    if st1.merged.contains key then st1
    else
      { fields :=
          match alookup parents key with
          | some p => aupdate st1.fields key (fun f => f.merge p)
          | none => st1.fields,
        merged := key :: st1.merged }
  { st2 with fields := aupdate st2.fields key (fun f => f.merge mf) }

/-- Embedding of `fields._add_field_default_from_attrs`: explicit
`SettingsField` entries are skipped here; a read-only property contributes
its return annotation (when present) as a fallback type hint and a
`_PropertyRetriever` wrapping it, a property with a setter or deleter is a
declaration-time error, a lazy reference contributes only a default value
(its `fget` has no return annotation and it is not a `property` instance),
and every other value contributes itself as default value together with its
concrete type as type hint. -/
def addFieldDefaultFromAttrs (parents : List (String × SField)) :
    List (String × AttrVal) → GState → Except PyErr GState
  | [], st => .ok st
  | (k, v) :: rest, st =>
    match v with
    | .fieldDecl _ => addFieldDefaultFromAttrs parents rest st
    | .prop pid retHint hasSetterOrDeleter =>
      if hasSetterOrDeleter then
        .error (.assertError ("BaseSettings and SettingsField currently do not have the " ++
          "ability to support a property setter/deleter. You can only use read-only " ++
          "properties with them."))
      else
        addFieldDefaultFromAttrs parents rest
          (mergeFieldStep parents st k { typeHint := retHint, retriever := some (.propRetr pid) })
    | .lazyAttr c key2 =>
      addFieldDefaultFromAttrs parents rest
        (mergeFieldStep parents st k { defaultValue := .vLazy c key2 })
    | .plain pv =>
      addFieldDefaultFromAttrs parents rest
        (mergeFieldStep parents st k { defaultValue := pv, typeHint := some (pyType pv) })
    | _ => addFieldDefaultFromAttrs parents rest st

/-- Embedding of `fields._add_field_typehints_from_annotations`: each
annotation of an allowed field name is merged as a type-hint-only partial
field. -/
def addFieldTypehints (parents : List (String × SField)) (allowedNames : List String) :
    List (String × TypeHint) → GState → GState
  | [], st => st
  | (k, th) :: rest, st =>
    if allowedNames.contains k then
      addFieldTypehints parents allowedNames rest
        (mergeFieldStep parents st k { typeHint := some th })
    else addFieldTypehints parents allowedNames rest st

/-- Embedding of `fields._unwrap_typehints` and
`fields._add_field_overrides_from_attrs`, which perform the identical
iteration: every explicit `SettingsField` namespace entry is merged into the
accumulated field of its key. -/
def addFieldOverrides (parents : List (String × SField)) :
    List (String × AttrVal) → GState → GState
  | [], st => st
  | (k, v) :: rest, st =>
    match v with
    | .fieldDecl f => addFieldOverrides parents rest (mergeFieldStep parents st k f)
    | _ => addFieldOverrides parents rest st

/-- Model of `xsentinels.unwrap_union` on the modelled hints: `Optional[t]`
unwraps to `t` and is optional; anything else is returned unchanged. -/
def unwrapUnion : TypeHint → TypeHint × Bool
  | .tOptional t => (t, true)
  | t => (t, false)

/-- The per-field finalization loop at the end of `generate_setting_fields`
(fields.py lines 442-481): backfill the type hint from the concrete default
value (skipping properties and other `__get__`-bearing defaults), validate
the retriever (every modelled retriever tag is callable, so the assertion
never fires inside the modelled universe), reject missing/`Any`/`NoneType`
hints, unwrap `Optional`, and derive `required` from optionality when the
user did not set it. -/
def finalizeField (f : SField) : Except PyErr SField :=
  let f1 :=
    if f.typeHint.isNone && f.defaultValue ≠ .vNone && !(hasGet f.defaultValue) then
      { f with typeHint := some (pyType f.defaultValue) }
    else f
  match f1.typeHint with
  | none =>
    .error (.assertError ("Must have type-hint for field (" ++
      fieldRepr (fun _ => "") f1 ++ ")."))
  | some .tAny =>
    .error (.assertError ("Must have type-hint for field (" ++
      fieldRepr (fun _ => "") f1 ++ ")."))
  | some .tNoneType =>
    .error (.assertError ("Must have type-hint for field (" ++
      fieldRepr (fun _ => "") f1 ++ ")."))
  | some th =>
    let u := unwrapUnion th
    let f2 := { f1 with typeHint := some u.1 }
    .ok (if f2.required.isNone then { f2 with required := some (!u.2) } else f2)

/-- Finalize every accumulated field in order. -/
def finalizeFields : List (String × SField) → Except PyErr (List (String × SField))
  | [] => .ok []
  | (k, f) :: rest =>
    match finalizeField f with
    | .error e => .error e
    | .ok f2 =>
      match finalizeFields rest with
      | .error e => .error e
      | .ok rs => .ok ((k, f2) :: rs)

/-- Embedding of `generate_setting_fields` (fields.py lines 376-483): filter
the namespace to allowed entries, collect the allowed field names (namespace
entries plus non-private annotated names that are not namespace entries), run
the four merge passes, and finalize. -/
def generateSettingFields (attrs : List (String × AttrVal))
    (annotations : List (String × TypeHint)) (parents : List (String × SField)) :
    Except PyErr (List (String × SField)) :=
  let fields := attrs.filter (fun kv => allowedField kv.1 kv.2)
  let allowedNames :=
    fields.map (fun kv => kv.1) ++
    (annotations.filter
      (fun kv => !(strStarts kv.1 "_") && (alookup attrs kv.1).isNone)).map (fun kv => kv.1)
  match addFieldDefaultFromAttrs parents fields ⟨[], []⟩ with
  | .error e => .error e
  | .ok st1 =>
    let st2 := addFieldTypehints parents allowedNames annotations st1
    let st3 := addFieldOverrides parents fields st2
    let st4 := addFieldOverrides parents fields st3
    finalizeFields st4.fields

/-- The metaclass stamps `source_class` on every generated field after
creating the class (`_SettingsMeta.__new__`, settings.py lines 142-144). -/
def stampSourceClass (cid : Nat) (fs : List (String × SField)) : List (String × SField) :=
  fs.map (fun kv => (kv.1, { kv.2 with sourceClass := some cid }))

/-! ## Concrete worlds used by the witnesses and examples -/

/-- An interpretation of user hooks that makes none of them produce anything:
every user retriever and property returns `None`, user converters raise. -/
def inertHooks : (Nat → String → Nat → PyVal) × (Nat → Nat → PyVal) × (Nat → PyVal) ×
    (Nat → PyVal → Except String PyVal) :=
  (fun _ _ _ => .vNone, fun _ _ => .vNone, fun _ => .vNone, fun _ _ => .error "not modelled")

/-- The field `x: int` of the C9 example class. -/
def fld9x : SField :=
  { name := some "x", sourceClass := some 0, sourceName := some "x",
    required := some true, typeHint := some .tInt }

/-- `class MyEnvSettings(EnvVarSettings): x: int` with environment `X=5` and
`x` unset, one fresh current instance. -/
def cls9 : SchemaCls :=
  { pyName := "MyEnvSettings", settingFields := [("x", fld9x)],
    defaultRetrievers := [.envVar], mro := [0], plainAttrs := [], hasPlain := false }

def w9 : World :=
  { classes := [cls9],
    insts := [{ cls := 0, dict := [], instRetrievers := [] }],
    current := [0], chains := [[0]],
    environ := [("X", "5")],
    retrImpl := inertHooks.1, propImpl := inertHooks.2.1,
    callImpl := inertHooks.2.2.1, convImpl := inertHooks.2.2.2 }

/-- Field `g: int` of schema `ASettings` (class 0) in the C3 world. -/
def c3gField : SField :=
  { name := some "g", sourceClass := some 0, sourceName := some "g",
    required := some true, typeHint := some .tInt }

/-- Field `f: str` of schema `BSettings` (class 1) in the C3 world; its
default value is the lazy reference `ASettings.g` produced by class-level
attribute access on `ASettings`. -/
def c3fField : SField :=
  { name := some "f", sourceClass := some 1, sourceName := some "f",
    required := some true, typeHint := some .tStr, defaultValue := .vLazy 0 "g" }

/-- Two schemas `ASettings` (class 0, instance 0, with `g` directly set to
the integer `n` on its current instance) and `BSettings` (class 1, instance
1, with `f` defaulting to the lazy reference `ASettings.g`). -/
def c3ClsA : SchemaCls :=
  { pyName := "ASettings", settingFields := [("g", c3gField)], defaultRetrievers := [],
    mro := [0], plainAttrs := [], hasPlain := false }

def c3ClsB : SchemaCls :=
  { pyName := "BSettings", settingFields := [("f", c3fField)], defaultRetrievers := [],
    mro := [1], plainAttrs := [], hasPlain := false }

def c3World (n : Int) : World :=
  { classes := [c3ClsA, c3ClsB],
    insts := [{ cls := 0, dict := [("g", .vInt n)], instRetrievers := [] },
              { cls := 1, dict := [], instRetrievers := [] }],
    current := [0, 1], chains := [[0], [1]],
    environ := [],
    retrImpl := inertHooks.1, propImpl := inertHooks.2.1,
    callImpl := inertHooks.2.2.1, convImpl := inertHooks.2.2.2 }

/-- The required field `my_str: str` of the C2 witness world. -/
def w2Field : SField :=
  { name := some "my_str", sourceClass := some 0, sourceName := some "my_str",
    required := some true, typeHint := some .tStr }

/-- `class MySettings(BaseSettings): my_str: str` with no value set anywhere,
no retrievers and no default: accessing `my_str` must raise the
missing-value error. -/
def w2Cls : SchemaCls :=
  { pyName := "MySettings", settingFields := [("my_str", w2Field)],
    defaultRetrievers := [], mro := [0], plainAttrs := [], hasPlain := false }

def w2World : World :=
  { classes := [w2Cls],
    insts := [{ cls := 0, dict := [], instRetrievers := [] }],
    current := [0], chains := [[0]],
    environ := [],
    retrImpl := inertHooks.1, propImpl := inertHooks.2.1,
    callImpl := inertHooks.2.2.1, convImpl := inertHooks.2.2.2 }

/-- The C1 witness field: it carries its own retriever (user retriever 0). -/
def w1Field : SField :=
  { name := some "a", sourceClass := some 0, sourceName := some "a",
    required := some true, typeHint := some .tInt, retriever := some (.table 0) }

/-- The C1 witness world: the instance has one instance retriever (1), a
second chain instance has one (2), and the class has one default retriever
(3); user retrievers 0-2 return `None` and retriever 3 returns 7, so the
resolution must consult them in order 0, 1, 2, 3 and take 7. -/
def w1Cls : SchemaCls :=
  { pyName := "OrderSettings", settingFields := [("a", w1Field)],
    defaultRetrievers := [.table 3], mro := [0], plainAttrs := [], hasPlain := false }

def w1World : World :=
  { classes := [w1Cls],
    insts := [{ cls := 0, dict := [], instRetrievers := [.table 1] },
              { cls := 0, dict := [], instRetrievers := [.table 2] }],
    current := [0], chains := [[0, 1]],
    environ := [],
    retrImpl := fun tid _ _ => if tid = 3 then .vInt 7 else .vNone,
    propImpl := inertHooks.2.1, callImpl := inertHooks.2.2.1, convImpl := inertHooks.2.2.2 }

/-- The C7 read-back field `db_config: DBConfig` (with a user converter
declared, which must not be invoked on an already-typed value). -/
def w7Field : SField :=
  { name := some "db_config", sourceClass := some 0, sourceName := some "db_config",
    required := some true, converter := some 0, typeHint := some (.tObjCls "DBConfig") }

/-- A world where the current instance has a pre-built `DBConfig` object
(identity 0) directly set on `db_config`: reading it back must yield the very
same object. -/
def w7Cls : SchemaCls :=
  { pyName := "MySettings", settingFields := [("db_config", w7Field)],
    defaultRetrievers := [], mro := [0], plainAttrs := [], hasPlain := false }

def w7World : World :=
  { classes := [w7Cls],
    insts := [{ cls := 0, dict := [("db_config", .vObj "DBConfig" 5 0)], instRetrievers := [] }],
    current := [0], chains := [[0]],
    environ := [],
    retrImpl := inertHooks.1, propImpl := inertHooks.2.1,
    callImpl := inertHooks.2.2.1, convImpl := inertHooks.2.2.2 }

/-- The field object shared through inheritance in the heap worlds:
`a: str` declared on the parent. -/
def hFieldA : SField :=
  { name := some "a", sourceClass := some 0, sourceName := some "a",
    required := some true, typeHint := some .tStr }

/-- A parent schema owning field `a` (heap cell 0) and two child schemas that
inherit it without re-declaring it; `baseId` is an identity no mro list
contains, as `_SettingsMeta.__new__` guarantees for `BaseSettings`. -/
def hWorld : MetaWorld :=
  { heap := [hFieldA],
    classes := [{ pyName := "ParentSettings", fieldRefs := [("a", 0)], mro := [0] },
                { pyName := "ChildC", fieldRefs := [], mro := [1, 0] },
                { pyName := "ChildD", fieldRefs := [], mro := [2, 0] }],
    baseId := 99 }

/-- The heap world after `ChildC.a = <dict object 7>`: heap cell 0 holds the
parent's field with only its default value overwritten — by the very object
assigned, identity included. -/
def hWorldAfterSet : MetaWorld :=
  { hWorld with heap := [setDefault hFieldA (.vObj "dict" 7 0)] }

/-- The parent field of the C6 counterexample: `a: str =
SettingsField(required=False)` finalized on the parent — explicitly
not-required with a non-optional hint. -/
def c6ParentField : SField :=
  { name := some "a", sourceClass := some 0, sourceName := some "a",
    required := some false, typeHint := some .tStr }

/-- The child namespace of the C6 counterexample: `a =
SettingsField(name="a_alt")` — re-declaring the inherited field overriding
only its lookup name. -/
def c6ChildAttrs : List (String × AttrVal) :=
  [("a", .fieldDecl { name := some "a_alt" })]

/-! # Theorems for the claims -/

/-- The retriever loop returns the first non-`None` retriever result, the
initial value when there are no retrievers at all, and `None` otherwise. -/
theorem runRetrLoop_eq_firstNonNone (w : World) (f : SField) (i : Nat) :
    ∀ (rs : List Retr) (v : PyVal),
      runRetrLoop w f i rs v =
        (match firstNonNoneValue w f i rs with
         | some x => x
         | none => if rs = [] then v else .vNone) := by
  intro rs
  induction rs with
  | nil => intro v; simp [runRetrLoop, firstNonNoneValue]
  | cons r rs ih =>
    intro v
    simp only [runRetrLoop, firstNonNoneValue]
    by_cases hv : applyRetr w r f i = .vNone
    · simp only [hv, if_pos rfl, ih]
      cases hfn : firstNonNoneValue w f i rs with
      | some x => simp [hfn]
      | none => cases rs <;> simp [hfn, firstNonNoneValue] at hfn ⊢
    · simp [hv]

/-- Claim C1: during instance field resolution with a directly-set value of
`None` (or the `Default` sentinel), the retrieval strategies consulted by
`_resolve_field_value` are exactly, in order: the field's own retriever (if
set), the instance's own registered retrievers, the registered retrievers of
each other instance in the ambient dependency chain (nearest scope first,
skipping the instance itself), and the class-level default retrievers of each
schema class in the ancestor chain (nearest class first) — and the first
non-`None` result is taken. -/
theorem claim1_retriever_consultation_order (w : World) (f : SField) (i : Nat) (v0 : PyVal)
    (h : v0 = .vNone ∨ v0 = .vDefault) :
    retrieversToTry w f i = claimedRetrieverOrder w f i ∧
    retrievedStage w f i v0 =
      (match firstNonNoneValue w f i (claimedRetrieverOrder w f i) with
       | some v => v
       | none => if claimedRetrieverOrder w f i = [] then v0 else .vNone) := by
  have horder : retrieversToTry w f i = claimedRetrieverOrder w f i := by
    simp [retrieversToTry, selfAndParentRetrievers, claimedRetrieverOrder, List.append_assoc]
  refine ⟨horder, ?_⟩
  rcases h with h | h <;> subst h <;>
    simp [retrievedStage, horder, runRetrLoop_eq_firstNonNone]

/-- Witness for C1 in a world with a field retriever, an instance retriever,
a chain-parent retriever and a class default retriever; only the last one
produces a value. -/
theorem claim1_witness :
    ((PyVal.vNone = PyVal.vNone ∨ PyVal.vNone = PyVal.vDefault) ∧
     (retrieversToTry w1World w1Field 0 = claimedRetrieverOrder w1World w1Field 0 ∧
      retrievedStage w1World w1Field 0 .vNone =
        (match firstNonNoneValue w1World w1Field 0 (claimedRetrieverOrder w1World w1Field 0) with
         | some v => v
         | none => if claimedRetrieverOrder w1World w1Field 0 = [] then PyVal.vNone
                   else PyVal.vNone))) :=
  ⟨Or.inl rfl, claim1_retriever_consultation_order w1World w1Field 0 .vNone (Or.inl rfl)⟩

/-- Claim C9: the environment-variable strategy returns the value stored
under the field's exact name if one exists, otherwise the value stored under
the upper-cased name if one exists, otherwise `None`; concretely, with `x`
unset and `X` set to "5", the field `x` with integer type hint resolves to
the integer 5 through the full access path. -/
theorem claim9_envvar_lookup_order :
    (∀ (w : World) (f : SField) (i : Nat),
        applyRetr w .envVar f i =
          (match alookup w.environ (f.name.getD "") with
           | some v => PyVal.vStr v
           | none =>
             match alookup w.environ (pyUpper (f.name.getD "")) with
             | some v => PyVal.vStr v
             | none => PyVal.vNone)) ∧
    getattrInst 2 w9 0 "x" = .ok (.vInt 5) := by
  constructor
  · intro w f i
    rfl
  · decide

/-- Claim C3: the lazy forward reference obtained from class-level attribute
access (`ASettings.g`, installed as the default of `BSettings.f`) re-resolves
on every read against the current instance of `ASettings`: for every directly
set value `n` of `g`, reading `f` yields the str-converted current value of
`g`, and equals converting the result of reading `g` — so changing `n`
changes every subsequent read of `f` without re-declaring `BSettings`. -/
theorem claim3_lazy_forward_ref_reresolves (n : Int) :
    metaGetattrRes (c3World n) 0 "g" = .ok (.vLazy 0 "g") ∧
    getattrInst 3 (c3World n) 1 "f" = .ok (.vStr (toString n)) ∧
    getattrInst 3 (c3World n) 0 "g" = .ok (.vInt n) ∧
    getattrInst 3 (c3World n) 1 "f" =
      (getattrInst 2 (c3World n) 0 "g").bind
        (fun v => convertValue (c3World n).convImpl
          (fun c => (c3World n).clsName c) c3fField v) := by
  refine ⟨rfl, ?_, ?_, ?_⟩ <;>
    simp [getattrInst, getattrStep, c3World, c3ClsA, c3ClsB, findFieldRes, findFieldAux,
      World.classAt, World.instAt, World.chainAt, World.currentAt, World.clsName, alookup,
      objGetattributeRaw, getNormalWith, strStarts, chainFoldWith, resolveFieldValueWith,
      retrievedStage, retrieversToTry, runRetrLoop, selfAndParentRetrievers, derefGetWith,
      convertValue, applyConv, ctorApply, strCtor, baseTypehint, DEFAULT_CONVERTERS,
      defaultConverterOf, reqTruthy, isInst, hasGet, pyTruthy, c3fField, c3gField, emptyCls,
      emptyInst, pyStr, intCtor, Except.bind]

/-- Converting Python `None` is the identity regardless of the field. -/
theorem convertValue_id_of_none (convImpl : Nat → PyVal → Except String PyVal)
    (clsNameOf : Nat → String) (f : SField) :
    convertValue convImpl clsNameOf f .vNone = .ok .vNone := by
  simp only [convertValue]
  cases hc : f.converter with
  | some cid => simp
  | none =>
    cases hd : DEFAULT_CONVERTERS f.typeHint with
    | some c => simp
    | none =>
      cases hg : defaultConverterOf f with
      | some c => simp [hg]
      | none => simp [hg]

/-- Conversion is the identity on `None` and on any value that is already an
instance of the field's base type hint: no converter is invoked. -/
theorem claim7_general (convImpl : Nat → PyVal → Except String PyVal)
    (clsNameOf : Nat → String) (f : SField) (v : PyVal)
    (h : v = .vNone ∨ ∃ bh, baseTypehint f = some bh ∧ isInst v bh = true) :
    convertValue convImpl clsNameOf f v = .ok v := by
  by_cases hvn : v = .vNone
  · subst hvn
    exact convertValue_id_of_none convImpl clsNameOf f
  · have hbase : ∃ bh, baseTypehint f = some bh ∧ isInst v bh = true := by
      rcases h with h | h
      · exact absurd h hvn
      · exact h
    obtain ⟨bh, hb, hi⟩ := hbase
    have hvd : v ≠ .vDefault := by
      rintro rfl
      simp [isInst] at hi
    simp only [convertValue, hb]
    cases hc : f.converter with
    | some cid => simp [hvn, hvd, hb, hi]
    | none =>
      cases hd : DEFAULT_CONVERTERS f.typeHint with
      | some c => simp [hvn, hvd, hb, hi]
      | none =>
        cases hg : defaultConverterOf f with
        | some c => simp [hg, hvn, hvd, hb, hi]
        | none => simp [hg, hvn, hvd]

/-- Claim C7: `convert_value` returns the value itself, without invoking any
converter, whenever the value is `None` or already an instance of the field's
base type hint (a generic hint reducing to its unparameterized origin); and
reading back a directly-set value of the declared type through the full
access path yields the exact same object (same identity component). -/
theorem claim7_convert_identity_on_typed_values :
    (∀ (convImpl : Nat → PyVal → Except String PyVal) (clsNameOf : Nat → String)
        (f : SField) (v : PyVal),
        (v = .vNone ∨ ∃ bh, baseTypehint f = some bh ∧ isInst v bh = true) →
        convertValue convImpl clsNameOf f v = .ok v) ∧
    getattrInst 2 w7World 0 "db_config" = .ok (.vObj "DBConfig" 5 0) :=
  ⟨claim7_general, by decide⟩

/-- Witness for C7 at a pre-built object of the declared class (with a user
converter present on the field, which is not invoked). -/
theorem claim7_witness :
    ((PyVal.vObj "DBConfig" 5 0 = PyVal.vNone ∨
      ∃ bh, baseTypehint w7Field = some bh ∧ isInst (PyVal.vObj "DBConfig" 5 0) bh = true) ∧
     convertValue inertHooks.2.2.2 (fun _ => "MySettings") w7Field (PyVal.vObj "DBConfig" 5 0) =
       .ok (PyVal.vObj "DBConfig" 5 0)) :=
  ⟨Or.inr ⟨.tObjCls "DBConfig", rfl, by decide⟩,
   claim7_convert_identity_on_typed_values.1 _ _ w7Field _
     (Or.inr ⟨.tObjCls "DBConfig", rfl, by decide⟩)⟩

/-- The substring relation used to state that an error message names a field
or a class. -/
def strSub (sub big : String) : Prop :=
  ∃ a b : String, big = a ++ sub ++ b

/-- Substring containment is transitive. -/
theorem strSub_trans {s m b : String} (h1 : strSub s m) (h2 : strSub m b) : strSub s b := by
  obtain ⟨a1, b1, rfl⟩ := h1
  obtain ⟨a2, b2, rfl⟩ := h2
  exact ⟨a2 ++ a1, b1 ++ b2, by simp [String.append_assoc]⟩

/-- The dataclass repr of a field contains the field's name. -/
theorem name_sub_fieldRepr (clsNameOf : Nat → String) (f : SField) (nm : String)
    (hnm : f.name = some nm) : strSub nm (fieldRepr clsNameOf f) :=
  ⟨"SettingsField(name=" ++ "\x27",
   "\x27" ++ (", source_class=" ++ clsOptRepr clsNameOf f.sourceClass ++
      ", source_name=" ++ strOptRepr f.sourceName ++
      ", required=" ++ boolOptRepr f.required ++
      ", converter=" ++ convRepr f.converter ++
      ", type_hint=" ++ (match f.typeHint with | none => "None" | some h => typeHintRepr h) ++
      ", retriever=" ++ retrRepr f.retriever ++
      ", default_value=" ++ pyStr f.defaultValue ++ ")"),
   by simp only [fieldRepr, hnm, strOptRepr, String.append_assoc]⟩

/-- The dataclass repr of a field contains the name of its source class. -/
theorem cls_sub_fieldRepr (clsNameOf : Nat → String) (f : SField) (sc : Nat)
    (hsc : f.sourceClass = some sc) : strSub (clsNameOf sc) (fieldRepr clsNameOf f) :=
  ⟨"SettingsField(name=" ++ strOptRepr f.name ++ ", source_class=" ++ "<class \x27",
   "\x27>" ++ (", source_name=" ++ strOptRepr f.sourceName ++
      ", required=" ++ boolOptRepr f.required ++
      ", converter=" ++ convRepr f.converter ++
      ", type_hint=" ++ (match f.typeHint with | none => "None" | some h => typeHintRepr h) ++
      ", retriever=" ++ retrRepr f.retriever ++
      ", default_value=" ++ pyStr f.defaultValue ++ ")"),
   by simp only [fieldRepr, hsc, clsOptRepr, String.append_assoc]⟩

/-- When every retriever in the sequence answers `None`, there is no first
non-`None` result. -/
theorem firstNonNone_none_of_all (w : World) (f : SField) (i : Nat) :
    ∀ rs : List Retr, (∀ r ∈ rs, applyRetr w r f i = .vNone) →
      firstNonNoneValue w f i rs = none := by
  intro rs
  induction rs with
  | nil => intro _; rfl
  | cons r rs ih =>
    intro h
    simp only [firstNonNoneValue, h r (List.mem_cons_self r rs), if_pos rfl]
    exact ih (fun r' hr' => h r' (List.mem_cons_of_mem r hr'))

/-- The dependency-chain loop leaves the state unchanged when no chain
instance has the key in its `__dict__`. -/
theorem chainFold_skip_of_nodict (rec : Nat → String → Except PyErr PyVal) (w : World)
    (key : String) (selfIdx : Nat) :
    ∀ (ps : List Nat) (st : PState),
      (∀ p ∈ ps, alookup (w.instAt p).dict key = none) →
      chainFoldWith rec w key selfIdx ps st = .ok st := by
  intro ps
  induction ps with
  | nil => intro st _; rfl
  | cons p ps ih =>
    intro st h
    have hp : alookup (w.instAt p).dict key = none := h p (List.mem_cons_self p ps)
    simp only [chainFoldWith, hp]
    by_cases hv : st.value = PyVal.vNone
    · simp [hv, ih st (fun q hq => h q (List.mem_cons_of_mem p hq))]
    · simp [hv]

/-- `_resolve_field_value` raises the missing-value error when the incoming
value is `None`, every consulted retriever answers `None`, the default value
is `None` and the field is required. -/
theorem resolve_missing (rec : Nat → String → Except PyErr PyVal) (w : World)
    (f : SField) (i : Nat)
    (hretr : ∀ r ∈ retrieversToTry w f i, applyRetr w r f i = .vNone)
    (hdef : f.defaultValue = .vNone) (hreq : f.required = some true) :
    resolveFieldValueWith rec w f i .vNone = .error (.svError (missingValueMsg w f)) := by
  have hstage : retrievedStage w f i .vNone = .vNone := by
    rw [retrievedStage]
    simp only [if_pos]
    rw [runRetrLoop_eq_firstNonNone, firstNonNone_none_of_all w f i _ hretr]
    cases h : retrieversToTry w f i <;> simp
  simp [resolveFieldValueWith, hstage, hdef, reqTruthy, hreq]

/-- Claim C2: for a required field, when the directly-set value (on the
instance, the chain instances and the plain class attributes), every
consulted retrieval strategy and the default value all yield `None`, instance
attribute access raises a `SettingsValueError` whose message contains both
the field's name and the name of its owning schema class. -/
theorem claim2_required_missing_raises (w : World) (i : Nat) (key : String) (f : SField)
    (nm : String) (sc : Nat) (n : Nat)
    (hkey1 : strStarts key "_" = false) (hkey2 : strStarts key "settings__" = false)
    (hfield : findFieldRes w (w.instAt i).cls key = some f)
    (hnm : f.name = some nm) (hsc : f.sourceClass = some sc)
    (hreq : f.required = some true)
    (hdict : alookup (w.instAt i).dict key = none)
    (hplain : alookup (w.classAt (w.instAt i).cls).plainAttrs key = none)
    (hchain : ∀ p ∈ w.chainAt (w.instAt i).cls, alookup (w.instAt p).dict key = none)
    (hretr : ∀ r ∈ retrieversToTry w f i, applyRetr w r f i = .vNone)
    (hdef : f.defaultValue = .vNone) :
    ∃ m, getattrInst (n + 1) w i key = .error (.svError m) ∧
      strSub nm m ∧ strSub (w.clsName sc) m := by
  have hsubName : strSub nm (fieldReprW w f) := name_sub_fieldRepr _ f nm hnm
  have hsubCls : strSub (w.clsName sc) (fieldReprW w f) := cls_sub_fieldRepr _ f sc hsc
  have hnorm : getNormalWith (fun j k => getattrInst n w j k) w i key =
      .ok (.failKeep ("object has no attribute \x27" ++ key ++ "\x27")) := by
    simp [getNormalWith, objGetattributeRaw, hdict, hplain]
  have hres := resolve_missing (fun j k => getattrInst n w j k) w f i hretr hdef hreq
  by_cases hp : (w.classAt (w.instAt i).cls).hasPlain
  · refine ⟨plainFallbackFailMsg w f (missingValueMsg w f)
      ("object has no attribute \x27" ++ key ++ "\x27"), ?_, ?_, ?_⟩
    · have hcf := chainFold_skip_of_nodict (fun j k => getattrInst n w j k) w key i
        (w.chainAt (w.instAt i).cls) ⟨.vNone, none, false⟩ hchain
      simp only [getattrInst, getattrStep, hkey1, hkey2, hfield, hdict, hp]
      simp [hnorm, hres, hcf]
    · exact strSub_trans hsubName ⟨_, _, rfl⟩
    · exact strSub_trans hsubCls ⟨_, _, rfl⟩
  · refine ⟨missingValueMsg w f, ?_, ?_, ?_⟩
    · have hpf : (w.classAt (w.instAt i).cls).hasPlain = false := by
        simpa using hp
      have hcf := chainFold_skip_of_nodict (fun j k => getattrInst n w j k) w key i
        (w.chainAt (w.instAt i).cls)
        ⟨.vNone, some ("object has no attribute \x27" ++ key ++ "\x27"), true⟩ hchain
      simp only [getattrInst, getattrStep, hkey1, hkey2, hfield, hdict, hpf]
      simp [hnorm, hres, hcf]
    · exact strSub_trans hsubName ⟨_, _, rfl⟩
    · exact strSub_trans hsubCls ⟨_, _, rfl⟩

/-- Witness for C2: a required `my_str: str` field with no value available
anywhere raises the missing-value error naming `my_str` and `MySettings`. -/
theorem claim2_witness :
    (strStarts "my_str" "_" = false ∧ strStarts "my_str" "settings__" = false ∧
     findFieldRes w2World (w2World.instAt 0).cls "my_str" = some w2Field ∧
     w2Field.name = some "my_str" ∧ w2Field.sourceClass = some 0 ∧
     w2Field.required = some true ∧
     alookup (w2World.instAt 0).dict "my_str" = none ∧
     alookup (w2World.classAt (w2World.instAt 0).cls).plainAttrs "my_str" = none ∧
     (∀ p ∈ w2World.chainAt (w2World.instAt 0).cls,
        alookup (w2World.instAt p).dict "my_str" = none) ∧
     (∀ r ∈ retrieversToTry w2World w2Field 0,
        applyRetr w2World r w2Field 0 = .vNone) ∧
     w2Field.defaultValue = .vNone) ∧
    (∃ m, getattrInst 1 w2World 0 "my_str" = .error (.svError m) ∧
      strSub "my_str" m ∧ strSub (w2World.clsName 0) m) :=
  ⟨⟨by decide, by decide, by decide, by decide, by decide, by decide, by decide, by decide,
    by decide, by decide, by decide⟩,
   claim2_required_missing_raises w2World 0 "my_str" w2Field "my_str" 0 0
     (by decide) (by decide) (by decide) (by decide) (by decide) (by decide) (by decide)
     (by decide) (by decide) (by decide) (by decide)⟩

/-- Heap updates do not affect field lookup: the `__setattr__` search loop
reads only the class tables. -/
theorem findFieldRefScan_heap_irrel (w : MetaWorld) (h2 : List SField) (key : String) :
    ∀ ms : List Nat, findFieldRefScan { w with heap := h2 } key ms = findFieldRefScan w key ms := by
  intro ms
  induction ms with
  | nil => rfl
  | cons c rest ih => simp [findFieldRefScan, MetaWorld.classAtH, ih]

/-- Heap updates do not affect `findFieldRefH`. -/
theorem findFieldRefH_heap_irrel (w : MetaWorld) (h2 : List SField) (cid : Nat) (key : String) :
    findFieldRefH { w with heap := h2 } cid key = findFieldRefH w cid key := by
  simp [findFieldRefH, MetaWorld.classAtH, findFieldRefScan_heap_irrel]

/-- When `BaseSettings` does not occur in the scanned chain (which
`_SettingsMeta.__new__` guarantees), the `__setattr__` search loop takes the
first class in the chain owning the name — the nearest-first search of the
specification. -/
theorem findFieldRefScan_eq_findSome (w : MetaWorld) (key : String) :
    ∀ ms : List Nat, w.baseId ∉ ms →
      findFieldRefScan w key ms =
        ms.findSome? (fun c => alookup (w.classAtH c).fieldRefs key) := by
  intro ms
  induction ms with
  | nil => intro _; rfl
  | cons c rest ih =>
    intro hb
    have hc : c ≠ w.baseId := fun h => hb (h ▸ List.mem_cons_self c rest)
    have hrest : w.baseId ∉ rest := fun h => hb (List.mem_cons_of_mem c h)
    simp only [findFieldRefScan, List.findSome?_cons]
    cases h : alookup (w.classAtH c).fieldRefs key with
    | some r => simp
    | none => simp [hc, ih hrest]

/-- Claim C4 (evaluating the code at the failing input): on a schema whose
ancestor chain nowhere declares the name "b", class-level attribute access
returns a lazy `SettingsClassProperty` reference instead of raising: the
`raise AttributeError` inside the search loop of `_SettingsMeta.__getattr__`
is guarded by `c is BaseSettings`, and `BaseSettings` is never a member of
`_setting_subclasses_in_mro`, so the loop falls through to the property
construction. -/
theorem claim4_unknown_class_attr_returns_lazy :
    (∀ c ∈ (hWorld.classAtH 0).mro, alookup (hWorld.classAtH c).fieldRefs "b" = none) ∧
    metaGetattrH hWorld 0 "b" = .ok (.vLazy 0 "b") := by decide

/-- Counterexample for C5 as stated: class-level assignment stores the
assigned mutable object itself into `default_value` — the stored value keeps
the assigned object's identity — whereas a `copy.copy` (which the claim
asserts) would yield a value with a fresh identity, observably different from
the stored one. -/
theorem claim5_counterexample :
    metaSetattrH hWorld 1 "a" (.vObj "dict" 7 0) = .ok (.updatedField hWorldAfterSet 0) ∧
    (hWorldAfterSet.heapAt 0).defaultValue = .vObj "dict" 7 0 ∧
    pyCopy (.vObj "dict" 7 0) ≠ (PyVal.vObj "dict" 7 0) := by decide

/-- Claim C5 as amended: class-level attribute assignment, when a field of
that name exists in the ancestor chain (searched nearest-first), overwrites
only that field's `default_value` — storing the assigned value itself, with
no copy — and leaves every other attribute of the field and every other heap
field unchanged; when no such field exists it raises an attribute-not-found
error. -/
theorem claim5_setattr_overwrites_default_only (w : MetaWorld) (cid : Nat) (key : String)
    (v : PyVal) (hkey : strStarts key "_" = false) :
    (∀ ref, findFieldRefH w cid key = some ref → ref < w.heap.length →
      ∃ w2, metaSetattrH w cid key v = .ok (.updatedField w2 ref) ∧
        (w2.heapAt ref).defaultValue = v ∧
        (w2.heapAt ref).name = (w.heapAt ref).name ∧
        (w2.heapAt ref).typeHint = (w.heapAt ref).typeHint ∧
        (w2.heapAt ref).required = (w.heapAt ref).required ∧
        (w2.heapAt ref).converter = (w.heapAt ref).converter ∧
        (w2.heapAt ref).retriever = (w.heapAt ref).retriever ∧
        (w2.heapAt ref).sourceName = (w.heapAt ref).sourceName ∧
        (w2.heapAt ref).sourceClass = (w.heapAt ref).sourceClass ∧
        (∀ r, r ≠ ref → w2.heapAt r = w.heapAt r)) ∧
    (findFieldRefH w cid key = none →
      metaSetattrH w cid key v = .error (.attrError
        ("Setting new fields on BaseSettings subclass unsupported " ++
         "currently, attempted to set key (" ++ key ++ ") with value (" ++ pyStr v ++ ")."))) ∧
    (w.baseId ∉ (w.classAtH cid).mro →
      findFieldRefH w cid key = specNearestFieldRef w cid key) := by
  refine ⟨?_, ?_, ?_⟩
  · intro ref hfind hlen
    refine ⟨{ w with heap := w.heap.set ref (setDefault (w.heapAt ref) v) }, ?_, ?_⟩
    · simp [metaSetattrH, hkey, hfind]
    · have hfr : ∀ r, r ≠ ref →
          (MetaWorld.heapAt { w with heap := w.heap.set ref (setDefault (w.heapAt ref) v) } r) =
            w.heapAt r := by
        intro r hr
        simp [MetaWorld.heapAt, List.getD_eq_getElem?_getD,
          List.getElem?_set_ne (fun h => hr h.symm)]
      refine ⟨?_, ?_, ?_, ?_, ?_, ?_, ?_, ?_, hfr⟩ <;>
        simp [MetaWorld.heapAt, List.getD_eq_getElem?_getD,
          List.getElem?_set_eq_of_lt _ hlen, setDefault]
  · intro hfind
    simp [metaSetattrH, hkey, hfind]
  · intro hb
    simp [findFieldRefH, specNearestFieldRef, findFieldRefScan_eq_findSome w key _ hb]

/-- Witness for C5 (amended), instantiating the found-field branch on the
parent schema itself. -/
theorem claim5_witness :
    (strStarts "a" "_" = false ∧ findFieldRefH hWorld 0 "a" = some 0 ∧
     0 < hWorld.heap.length) ∧
    (∃ w2, metaSetattrH hWorld 0 "a" (.vInt 3) = .ok (.updatedField w2 0) ∧
      (w2.heapAt 0).defaultValue = .vInt 3 ∧
      (w2.heapAt 0).name = (hWorld.heapAt 0).name ∧
      (w2.heapAt 0).typeHint = (hWorld.heapAt 0).typeHint ∧
      (w2.heapAt 0).required = (hWorld.heapAt 0).required ∧
      (w2.heapAt 0).converter = (hWorld.heapAt 0).converter ∧
      (w2.heapAt 0).retriever = (hWorld.heapAt 0).retriever ∧
      (w2.heapAt 0).sourceName = (hWorld.heapAt 0).sourceName ∧
      (w2.heapAt 0).sourceClass = (hWorld.heapAt 0).sourceClass ∧
      (∀ r, r ≠ 0 → w2.heapAt r = hWorld.heapAt r)) :=
  ⟨⟨by decide, by decide, by decide⟩,
   (claim5_setattr_overwrites_default_only hWorld 0 "a" (.vInt 3) (by decide)).1 0
     (by decide) (by decide)⟩

/-- Claim C10: when class-level assignment finds the field on an ancestor
(the class itself does not re-declare it), the shared field object is mutated
in place: field lookup through any class that resolves the name to the same
heap cell — the ancestor itself and every other descendant inheriting the
field — subsequently observes the new `default_value`. -/
theorem claim10_shared_field_mutation_visible (w : MetaWorld) (cid : Nat) (key : String)
    (v : PyVal) (ref : Nat)
    (hkey : strStarts key "_" = false)
    (hown : alookup (w.classAtH cid).fieldRefs key = none)
    (hfind : findFieldRefH w cid key = some ref)
    (hlen : ref < w.heap.length) :
    ∃ w2, metaSetattrH w cid key v = .ok (.updatedField w2 ref) ∧
      (∀ c2, findFieldRefH w2 c2 key = findFieldRefH w c2 key) ∧
      (w2.heapAt ref).defaultValue = v ∧
      (∀ c2, findFieldRefH w c2 key = some ref →
        (findFieldRefH w2 c2 key).map (fun r => (w2.heapAt r).defaultValue) = some v) := by
  refine ⟨{ w with heap := w.heap.set ref (setDefault (w.heapAt ref) v) }, ?_, ?_, ?_, ?_⟩
  · simp [metaSetattrH, hkey, hfind]
  · intro c2
    exact findFieldRefH_heap_irrel w _ c2 key
  · simp [MetaWorld.heapAt, List.getD_eq_getElem?_getD,
      List.getElem?_set_eq_of_lt _ hlen, setDefault]
  · intro c2 h2
    rw [findFieldRefH_heap_irrel w _ c2 key, h2]
    simp [MetaWorld.heapAt, List.getD_eq_getElem?_getD,
      List.getElem?_set_eq_of_lt _ hlen, setDefault]

/-- Witness for C10: assigning through `ChildC` (which does not re-declare
`a`) is observed through `ParentSettings` and `ChildD`, which resolve `a` to
the same heap cell. -/
theorem claim10_witness :
    (strStarts "a" "_" = false ∧
     alookup (hWorld.classAtH 1).fieldRefs "a" = none ∧
     findFieldRefH hWorld 1 "a" = some 0 ∧ 0 < hWorld.heap.length ∧
     findFieldRefH hWorld 0 "a" = some 0 ∧ findFieldRefH hWorld 2 "a" = some 0) ∧
    (∃ w2, metaSetattrH hWorld 1 "a" (.vStr "new-default") = .ok (.updatedField w2 0) ∧
      (∀ c2, findFieldRefH w2 c2 "a" = findFieldRefH hWorld c2 "a") ∧
      (w2.heapAt 0).defaultValue = .vStr "new-default" ∧
      (∀ c2, findFieldRefH hWorld c2 "a" = some 0 →
        (findFieldRefH w2 c2 "a").map (fun r => (w2.heapAt r).defaultValue) =
          some (.vStr "new-default"))) :=
  ⟨⟨by decide, by decide, by decide, by decide, by decide, by decide⟩,
   claim10_shared_field_mutation_visible hWorld 1 "a" (.vStr "new-default") 0 (by decide)
     (by decide) (by decide) (by decide)⟩

/-- A copy compares `==`-equal to the original value. -/
theorem pyEq_pyCopy (v : PyVal) : pyEq (pyCopy v) v = true := by
  cases v <;> simp [pyCopy, pyEq]

/-- Counterexample for C6 as stated: the parent declares `a: str =
SettingsField(required=False)` (finalized with `required=False`); the child
re-declares the field overriding only its lookup name, and the child's
finalized field has `required=True` — `SettingsField.merge` overwrites
`required` with the override's unset `None` and the final normalization then
re-derives it from the (non-optional) type hint, so the parent's explicit
`required=False` is not preserved. -/
theorem claim6_counterexample :
    generateSettingFields c6ChildAttrs [] [("a", c6ParentField)] =
      .ok [("a", { name := some "a_alt", sourceName := some "a", required := some true,
                   typeHint := some .tStr })] ∧
    c6ParentField.required = some false := by decide

/-- Claim C6 as amended: when a child schema re-declares an inherited field
overriding only its lookup name, the child's finalized field preserves the
parent's `type_hint`, `converter` and `retriever`, carries an `==`-equal copy
of the parent's `default_value`, and recomputes `source_name` (the child's
attribute name), `source_class` (stamped to the child class) and `required`
(re-derived from the inherited type hint — `True` for a non-optional hint —
rather than copied from the parent). -/
theorem claim6_name_override_merge_amended (p : SField) (th : TypeHint) (nm : String)
    (hth : p.typeHint = some th)
    (hunwrap : unwrapUnion th = (th, false))
    (hany : th ≠ .tAny) (hnone : th ≠ .tNoneType)
    (hnm : nm ≠ "") :
    generateSettingFields [("a", .fieldDecl { name := some nm })] [] [("a", p)] =
      .ok [("a", { name := some nm, sourceClass := none, sourceName := some "a",
                   required := some true, converter := p.converter, typeHint := some th,
                   retriever := p.retriever,
                   defaultValue := if p.defaultValue ≠ .vNone then pyCopy p.defaultValue
                                   else .vNone })] ∧
    pyEq (if p.defaultValue ≠ .vNone then pyCopy p.defaultValue else .vNone)
      p.defaultValue = true ∧
    (∀ cid, stampSourceClass cid
        [("a", { name := some nm, sourceClass := none, sourceName := some "a",
                 required := some true, converter := p.converter, typeHint := some th,
                 retriever := p.retriever,
                 defaultValue := if p.defaultValue ≠ .vNone then pyCopy p.defaultValue
                                 else .vNone })] =
      [("a", { name := some nm, sourceClass := some cid, sourceName := some "a",
               required := some true, converter := p.converter, typeHint := some th,
               retriever := p.retriever,
               defaultValue := if p.defaultValue ≠ .vNone then pyCopy p.defaultValue
                               else .vNone })]) := by
  refine ⟨?_, ?_, ?_⟩
  · cases th <;>
      (simp_all [generateSettingFields, addFieldDefaultFromAttrs, addFieldTypehints,
         addFieldOverrides, mergeFieldStep, alookup, aupdate, blankField, allowedField,
         strStarts, SField.merge, finalizeFields, finalizeField, unwrapUnion, hth, hnm,
         List.filter, List.findSome?]
       try (cases hcv : p.converter <;> cases hrv : p.retriever <;> simp_all))
  · by_cases hd : p.defaultValue = .vNone
    · simp [hd, pyEq]
    · simp [hd, pyEq_pyCopy]
  · intro cid
    simp [stampSourceClass]

/-- Witness for C6 (amended) at the counterexample's parent field. -/
theorem claim6_witness :
    (c6ParentField.typeHint = some .tStr ∧ unwrapUnion .tStr = (.tStr, false) ∧
     (TypeHint.tStr ≠ .tAny) ∧ (TypeHint.tStr ≠ .tNoneType) ∧ "a_alt" ≠ "") ∧
    (generateSettingFields [("a", .fieldDecl { name := some "a_alt" })] []
        [("a", c6ParentField)] =
      .ok [("a", { name := some "a_alt", sourceClass := none, sourceName := some "a",
                   required := some true, converter := c6ParentField.converter,
                   typeHint := some .tStr, retriever := c6ParentField.retriever,
                   defaultValue := if c6ParentField.defaultValue ≠ .vNone then
                       pyCopy c6ParentField.defaultValue
                     else .vNone })] ∧
     pyEq (if c6ParentField.defaultValue ≠ .vNone then pyCopy c6ParentField.defaultValue
           else .vNone) c6ParentField.defaultValue = true ∧
    (∀ cid, stampSourceClass cid
        [("a", { name := some "a_alt", sourceClass := none, sourceName := some "a",
                 required := some true, converter := c6ParentField.converter,
                 typeHint := some .tStr, retriever := c6ParentField.retriever,
                 defaultValue := if c6ParentField.defaultValue ≠ .vNone then
                     pyCopy c6ParentField.defaultValue
                   else .vNone })] =
      [("a", { name := some "a_alt", sourceClass := some cid, sourceName := some "a",
               required := some true, converter := c6ParentField.converter,
               typeHint := some .tStr, retriever := c6ParentField.retriever,
               defaultValue := if c6ParentField.defaultValue ≠ .vNone then
                   pyCopy c6ParentField.defaultValue
                 else .vNone })])) :=
  ⟨⟨by decide, by decide, by decide, by decide, by decide⟩,
   claim6_name_override_merge_amended c6ParentField .tStr "a_alt" (by decide) (by decide)
     (by decide) (by decide) (by decide)⟩

/-- Claim C8: for every float input, the default decimal converter
stringifies the float before parsing, so converting a float yields the
decimal obtained by parsing the float's decimal string representation;
in particular, with the Python string representation of the float 1.1 being
"1.1", converting it yields exactly 11/10, which is not the float's true
binary value. -/
theorem claim8_decimal_converter_stringifies_floats :
    (∀ (floatStr : PyFloat → String) (f : PyFloat),
        to_decimal floatStr (.flt f) = decimalParse (floatStr f)) ∧
    (∀ floatStr : PyFloat → String, floatStr floatOnePointOne = "1.1" →
        to_decimal floatStr (.flt floatOnePointOne) = some ((11 : ℚ) / 10) ∧
        ((11 : ℚ) / 10) ≠ floatOnePointOne.val) := by
  constructor
  · intro fs f
    rfl
  · intro fs h
    constructor
    · rw [show to_decimal fs (.flt floatOnePointOne) = decimalParse (fs floatOnePointOne) from
        rfl, h]
      simp [decimalParse, breakAtDot, digitsToNat]
      norm_num
    · simp [floatOnePointOne]
      norm_num

/-- Witness for C8 at the concrete float 1.1 with its actual Python string
representation. -/
theorem claim8_witness :
    ((fun _ : PyFloat => "1.1") floatOnePointOne = "1.1") ∧
    (to_decimal (fun _ : PyFloat => "1.1") (.flt floatOnePointOne) = some ((11 : ℚ) / 10) ∧
      ((11 : ℚ) / 10) ≠ floatOnePointOne.val) :=
  ⟨rfl, claim8_decimal_converter_stringifies_floats.2 (fun _ => "1.1") rfl⟩

end XSettings
